import Mathlib

/-!
Shallow embedding of the Tecopos backend glue service (src/main.py).

Each FastAPI route handler is embedded as a pure Lean function from
(session store, request data, upstream-response environment) to
(an `Except` result mirroring the HTTP response / HTTPException, together
with the ordered trace of upstream HTTP calls the handler issued).
Upstream responses are supplied by an `Env` of oracles, one per upstream
endpoint, so the theorems quantify over all upstream behaviours.

Numeric JSON price values are modelled as `Rat` (the code never does
arithmetic on them, it only copies them). Python string normalisation
(`str.strip().lower()`) is modelled with `String.trim` / `String.toLower`
(ASCII lowering, which agrees with Python on the inputs of interest).
Python `None`-able JSON lookups (`dict.get`) are modelled with `Option`.
The `time.sleep(0.5)` in product creation has no observable effect in this
model and is not represented.
-/

deriving instance DecidableEq for Except

/-- HTTP error raised via `HTTPException(status_code, detail)`. -/
structure HErr where
  status : Nat
  detail : String
deriving Repr, DecidableEq

/-- A stored session: `user_context[usuario] = {token, businessId, region}`. -/
structure Session where
  token : String
  businessId : Nat
  region : String
deriving Repr, DecidableEq

/-- The process-wide `user_context` map, keyed by user name. -/
def Store : Type := String → Option Session

/-- `user_context[u] = s` (overwrite-or-insert). -/
def Store.put (st : Store) (u : String) (s : Session) : Store :=
  fun v => if v = u then some s else st v

/-- Python truthiness of an optional string (`None` and `""` are falsy). -/
def pyTruthyStr : Option String → Bool
  | none => false
  | some s => s ≠ ""

/-- Python truthiness of an optional integer (`None` and `0` are falsy). -/
def pyTruthyNat : Option Nat → Bool
  | none => false
  | some n => n ≠ 0

/-- Python truthiness of the optional `stockAreaId` (`None` and `0` falsy). -/
def pyTruthyInt : Option Int → Bool
  | none => false
  | some n => n ≠ 0

/-- The whitespace characters stripped by `str.strip()` (the ones relevant
to this code base). -/
def esEspacio (c : Char) : Bool :=
  c == ' ' || c == '\t' || c == '\n' || c == '\r'

/-- Strip leading and trailing whitespace from a character list. -/
def trimLista (l : List Char) : List Char :=
  ((l.dropWhile esEspacio).reverse.dropWhile esEspacio).reverse

/-- `texto.strip().lower()` -/
def normalizar (texto : String) : String :=
  ⟨(trimLista texto.toList).map Char.toLower⟩

/-- Character-list version of Python `list1 == list2[:len(list1)]`. -/
def esPrefijo : List Char → List Char → Bool
  | [], _ => true
  | _ :: _, [] => false
  | a :: as, b :: bs => a == b && esPrefijo as bs

/-- Substring occurrence on character lists (Python `needle in hay`). -/
def contieneLista (pal : List Char) : List Char → Bool
  | [] => esPrefijo pal []
  | c :: rest => esPrefijo pal (c :: rest) || contieneLista pal rest

/-- Python `palabra in texto` (substring containment). -/
def contiene (texto palabra : String) : Bool :=
  contieneLista palabra.toList texto.toList

/-- `any(palabra in nombre for palabra in palabras)` -/
def contieneAlguna (nombre : String) (palabras : List String) : Bool :=
  palabras.any (fun palabra => contiene nombre palabra)

/-- `inferir_categoria` from src/main.py: keyword rules on the normalised name. -/
def inferir_categoria (nombre : String) : String :=
  let nombre := normalizar nombre
  if contieneAlguna nombre ["cerveza", "ron", "vino"] then "Bebidas Alcohólicas"
  else if contieneAlguna nombre ["refresco", "soda", "jugos"] then "Refrescos"
  else "Mercado"

/-- `get_base_url`: `region.lower().strip()` must equal "apidev". -/
def get_base_url (region : String) : Except HErr String :=
  if (⟨trimLista (region.toList.map Char.toLower)⟩ : String) = "apidev" then
    Except.ok "https://apidev.tecopos.com"
  else Except.error ⟨400, "Región inválida"⟩

/-- One price object as sent in create/patch payloads. -/
structure PriceSpec where
  systemPriceId : Nat
  price : Rat
  codeCurrency : String
deriving Repr, DecidableEq

/-- Product-creation payload built by the handlers (`images` is always `[]`). -/
structure ProductPayload where
  type : String
  name : String
  prices : List PriceSpec
  images : List String
  salesCategoryId : Option Nat
deriving Repr, DecidableEq

/-- Per-product stock-entry payload (`continue` is always `false`). -/
structure EntryPayload where
  productId : Option Nat
  quantity : Int
  stockAreaId : Option Int
  continueFlag : Bool
deriving Repr, DecidableEq

/-- One upstream HTTP request issued by a handler. -/
inductive Call where
  | loginPost (username password : String)
  | userInfoGet (bearer : Option String)
  | productListGet
  | productSearchGet (term : String)
  | productCreatePost (payload : ProductPayload)
  | productPatch (productId : Nat) (prices : List PriceSpec)
  | categoryListGet
  | categoryCreatePost (name : String)
  | areaListGet
  | stockEntryPost (payload : EntryPayload)
deriving Repr, DecidableEq

/-- `True` exactly on PATCH requests to the product endpoint. -/
def Call.esPatch : Call → Bool
  | .productPatch _ _ => true
  | _ => false

/-- An item of a search/category listing: `id` present, `name` via `.get("name","")`. -/
structure Item where
  id : Nat
  name : Option String
deriving Repr, DecidableEq

/-- A stock area item (`a["id"]`, `a["name"]` accessed directly). -/
structure AreaItem where
  id : Nat
  name : String
deriving Repr, DecidableEq

/-- One price entry of an upstream product, as read by `actualizar_monedas`:
`precio.get("codeCurrency")`, `precio["price"]`, `precio.get("systemPriceId", 1)`. -/
structure Precio where
  codeCurrency : Option String
  price : Rat
  systemPriceId : Option Nat
deriving Repr, DecidableEq

/-- An upstream product as read by `actualizar_monedas`
(`p["id"]`, `p["name"]`, `p.get("prices", [])`). -/
structure ProductItem where
  id : Nat
  name : String
  prices : List Precio
deriving Repr, DecidableEq

/-- Upstream environment: one response oracle per upstream endpoint.
Responses are (status code, parsed body). -/
structure Env where
  search : String → Nat × List Item
  createProduct : ProductPayload → Nat × Option Nat
  catList : Nat × List Item
  catCreate : String → Nat × Option Nat
  areaList : Nat × List AreaItem
  entry : EntryPayload → Nat
  productList : Nat × List ProductItem
  patchSt : Nat → Nat

/-- A benign default environment used to build concrete examples. -/
def env0 : Env where
  search := fun _ => (200, [])
  createProduct := fun _ => (201, some 1)
  catList := (200, [])
  catCreate := fun _ => (201, some 1)
  areaList := (200, [])
  entry := fun _ => 200
  productList := (200, [])
  patchSt := fun _ => 200

/-- `login_tecopos` (POST /login-tecopos). Inputs beyond the request: the
login response (status, optional token) and the user-info response
(status, optional businessId). The source never inspects the user-info
status code, so `infoStatus` is accepted but unused, mirroring the code.
Returns (result, updated store, trace). On success the result carries the
businessId echoed in the response body. -/
def login_tecopos (store : Store) (usuario password region : String)
    (loginStatus : Nat) (token : Option String)
    (infoStatus : Nat) (businessId : Option Nat) :
    Except HErr Nat × Store × List Call :=
  match get_base_url region with
  | .error e => (.error e, store, [])
  | .ok _ =>
    let tr := [Call.loginPost usuario password]
    if loginStatus ≠ 200 then
      (.error ⟨401, "Credenciales inválidas"⟩, store, tr)
    else
      let tr := tr ++ [Call.userInfoGet token]
      let _ := infoStatus
      if !(pyTruthyStr token && pyTruthyNat businessId) then
        (.error ⟨400, "No se pudo obtener token o businessId"⟩, store, tr)
      else
        (.ok (businessId.getD 0),
         store.put usuario ⟨token.getD "", businessId.getD 0, region⟩, tr)

/-- `obtener_o_crear_categoria`: GET the category list, return the id of the
first case-insensitive trimmed name match, else POST a new category. -/
def obtener_o_crear_categoria (nombre_categoria : String) (env : Env) :
    Except HErr (Option Nat) × List Call :=
  let res := env.catList
  let tr := [Call.categoryListGet]
  if res.1 ≠ 200 then
    (.error ⟨500, "No se pudieron consultar las categorías"⟩, tr)
  else
    match res.2.find? (fun c => normalizar (c.name.getD "") == normalizar nombre_categoria) with
    | some existente => (.ok (some existente.id), tr)
    | none =>
      let crear := env.catCreate nombre_categoria
      let tr := tr ++ [Call.categoryCreatePost nombre_categoria]
      if !(crear.1 == 200 || crear.1 == 201) then
        (.error ⟨500, "No se pudo crear la categoría"⟩, tr)
      else
        (.ok crear.2, tr)

/-- Request body of one line of POST /entrada-inteligente. -/
structure ProductoEntradaInteligente where
  nombre : String
  cantidad : Int
  precio : Rat
  moneda : String
deriving Repr, DecidableEq

/-- `buscar_o_crear_producto`: search by name, return the first normalised
exact match, else infer the category, resolve it, and create the product. -/
def buscar_o_crear_producto (producto : ProductoEntradaInteligente) (env : Env) :
    Except HErr (Option Nat) × List Call :=
  let nombre_norm := normalizar producto.nombre
  let res := env.search producto.nombre
  let tr := [Call.productSearchGet producto.nombre]
  if res.1 ≠ 200 then
    (.error ⟨500, s!"No se pudo buscar \x27{producto.nombre}\x27"⟩, tr)
  else
    match res.2.find? (fun p => normalizar (p.name.getD "") == nombre_norm) with
    | some existente => (.ok (some existente.id), tr)
    | none =>
      match obtener_o_crear_categoria (inferir_categoria producto.nombre) env with
      | (.error e, catTr) => (.error e, tr ++ catTr)
      | (.ok categoria_id, catTr) =>
        let payload : ProductPayload :=
          { type := "STOCK", name := producto.nombre
            prices := [⟨1, producto.precio, producto.moneda⟩]
            images := [], salesCategoryId := categoria_id }
        let crear := env.createProduct payload
        let tr := tr ++ catTr ++ [Call.productCreatePost payload]
        if !(crear.1 == 200 || crear.1 == 201) then
          (.error ⟨500, s!"No se pudo crear \x27{producto.nombre}\x27"⟩, tr)
        else
          (.ok crear.2, tr)

/-- Request body of POST /crear-producto-con-categoria. -/
structure Producto where
  nombre : String
  precio : Rat
  costo : Option Rat
  moneda : String
  tipo : String
  categorias : List String
  usuario : String
deriving Repr, DecidableEq

/-- `data.categorias[0] if data.categorias else inferir_categoria(data.nombre)`. -/
def categoriaElegida (data : Producto) : String :=
  match data.categorias with
  | [] => inferir_categoria data.nombre
  | c :: _ => c

/-- `crear_producto_con_categoria` (POST /crear-producto-con-categoria).
On success the result echoes (product name, category name used). -/
def crear_producto_con_categoria (store : Store) (data : Producto) (env : Env) :
    Except HErr (String × String) × List Call :=
  match store data.usuario with
  | none => (.error ⟨403, "Usuario no autenticado"⟩, [])
  | some ctx =>
    match get_base_url ctx.region with
    | .error e => (.error e, [])
    | .ok _ =>
      let categoria_nombre := categoriaElegida data
      match obtener_o_crear_categoria categoria_nombre env with
      | (.error e, catTr) => (.error e, catTr)
      | (.ok categoria_id, catTr) =>
        let payload : ProductPayload :=
          { type := data.tipo, name := data.nombre
            prices := [⟨1, data.precio, data.moneda⟩]
            images := [], salesCategoryId := categoria_id }
        let crear := env.createProduct payload
        let tr := catTr ++ [Call.productCreatePost payload]
        if !(crear.1 == 200 || crear.1 == 201) then
          (.error ⟨500, "No se pudo crear el producto"⟩, tr)
        else
          (.ok (data.nombre, categoria_nombre), tr)

/-- Request body of POST /entrada-inteligente. -/
structure EntradaInteligenteRequest where
  usuario : String
  stockAreaId : Option Int
  productos : List ProductoEntradaInteligente
deriving Repr, DecidableEq

/-- The per-line loop of `entrada_inteligente`: resolve each product, then
POST its stock entry; any failure aborts with the remaining lines unprocessed.
Returns (result: processed names, trace). -/
def entradaLoop (env : Env) (stockAreaId : Option Int) :
    List ProductoEntradaInteligente → Except HErr (List String) × List Call
  | [] => (.ok [], [])
  | prod :: rest =>
    match buscar_o_crear_producto prod env with
    | (.error e, tr) => (.error e, tr)
    | (.ok producto_id, tr) =>
      let payload : EntryPayload :=
        { productId := producto_id, quantity := prod.cantidad
          stockAreaId := stockAreaId, continueFlag := false }
      let est := env.entry payload
      let tr := tr ++ [Call.stockEntryPost payload]
      if !(est == 200 || est == 201) then
        (.error ⟨500, s!"No se pudo dar entrada a \x27{prod.nombre}\x27"⟩, tr)
      else
        match entradaLoop env stockAreaId rest with
        | (.error e, tr2) => (.error e, tr ++ tr2)
        | (.ok names, tr2) => (.ok (prod.nombre :: names), tr ++ tr2)

/-- Result of POST /entrada-inteligente: either the stock-area selection
prompt or the list of processed product names. -/
inductive EntradaResult where
  | seleccionArea (almacenes : List (Nat × String))
  | procesados (nombres : List String)
deriving Repr, DecidableEq

/-- `entrada_inteligente` (POST /entrada-inteligente). -/
def entrada_inteligente (store : Store) (data : EntradaInteligenteRequest)
    (env : Env) : Except HErr EntradaResult × List Call :=
  match store data.usuario with
  | none => (.error ⟨403, "Usuario no autenticado"⟩, [])
  | some ctx =>
    match get_base_url ctx.region with
    | .error e => (.error e, [])
    | .ok _ =>
      if !(pyTruthyInt data.stockAreaId) then
        let res := env.areaList
        let tr := [Call.areaListGet]
        if res.1 ≠ 200 then
          (.error ⟨500, "No se pudieron obtener los almacenes"⟩, tr)
        else
          (.ok (.seleccionArea (res.2.map fun a => (a.id, a.name))), tr)
      else
        match entradaLoop env data.stockAreaId data.productos with
        | (.error e, tr) => (.error e, tr)
        | (.ok procesados, tr) => (.ok (.procesados procesados), tr)

/-- Request body of POST /actualizar-monedas. -/
structure CambioMonedaRequest where
  usuario : String
  moneda_actual : String
  nueva_moneda : String
  confirmar : Bool
  forzar_todos : Bool
deriving Repr, DecidableEq

/-- One pending change collected by `actualizar_monedas`
(`{"id": .., "nombre": .., "price": .., "systemPriceId": ..}`). -/
structure Pendiente where
  id : Nat
  nombre : String
  price : Rat
  systemPriceId : Nat
deriving Repr, DecidableEq

/-- The pending entries one product contributes: one per price entry whose
`codeCurrency` equals the source currency. -/
def pendientesDe (moneda_actual : String) (p : ProductItem) : List Pendiente :=
  (p.prices.filter (fun pr => pr.codeCurrency == some moneda_actual)).map
    (fun pr => ⟨p.id, p.name, pr.price, pr.systemPriceId.getD 1⟩)

/-- The full pending change-set over the product list. -/
def computePendientes (productos : List ProductItem) (moneda_actual : String) :
    List Pendiente :=
  (productos.map (pendientesDe moneda_actual)).flatten

/-- The PATCH call issued for one pending entry: a single-entry `prices`
payload with the price preserved and the currency replaced. -/
def mkPatchCall (nueva_moneda : String) (prod : Pendiente) : Call :=
  .productPatch prod.id [⟨prod.systemPriceId, prod.price, nueva_moneda⟩]

/-- The confirm-path patch loop: PATCH every pending entry (the i-th call
gets status `patchSt i`), collecting the names whose status is 200/204.
A failing PATCH never aborts the loop. Returns (trace, updated names). -/
def patchLoop (nueva_moneda : String) (patchSt : Nat → Nat) (i : Nat) :
    List Pendiente → List Call × List String
  | [] => ([], [])
  | prod :: rest =>
    let next := patchLoop nueva_moneda patchSt (i + 1) rest
    (mkPatchCall nueva_moneda prod :: next.1,
     if patchSt i == 200 || patchSt i == 204
     then prod.nombre :: next.2 else next.2)

/-- Result of POST /actualizar-monedas: dry-run preview or the list of
names reported as updated. -/
inductive MonedaResult where
  | preview (productos_para_cambiar : List Pendiente)
  | updated (productos_actualizados : List String)
deriving Repr, DecidableEq

/-- `actualizar_monedas` (POST /actualizar-monedas). Note the source never
reads `forzar_todos`. -/
def actualizar_monedas (store : Store) (data : CambioMonedaRequest) (env : Env) :
    Except HErr MonedaResult × List Call :=
  match store data.usuario with
  | none => (.error ⟨403, "Usuario no autenticado"⟩, [])
  | some ctx =>
    match get_base_url ctx.region with
    | .error e => (.error e, [])
    | .ok _ =>
      let res := env.productList
      let tr := [Call.productListGet]
      if res.1 ≠ 200 then (.error ⟨500, "Error al obtener productos"⟩, tr)
      else
        let pendientes := computePendientes res.2 data.moneda_actual
        if !data.confirmar then
          (.ok (.preview pendientes), tr)
        else
          let loop := patchLoop data.nueva_moneda env.patchSt 0 pendientes
          (.ok (.updated loop.2), tr ++ loop.1)

/-! ## Shared example inputs for witnesses and counterexamples -/

/-- A store holding a session for user "ana" only. -/
def storeAna : Store :=
  fun u => if u = "ana" then some ⟨"tok", 7, "apidev"⟩ else none

/-- The empty store (no user logged in). -/
def storeVacio : Store := fun _ => none

/-! ## Helper lemmas -/

/-- `find?` returns the element at the first index satisfying the predicate. -/
theorem find_eq_get_of_first {α : Type} (p : α → Bool) (l : List α) (i : Nat)
    (hi : i < l.length) (hp : p (l.get ⟨i, hi⟩) = true)
    (hfirst : ∀ j (hj : j < i), p (l.get ⟨j, Nat.lt_trans hj hi⟩) = false) :
    l.find? p = some (l.get ⟨i, hi⟩) := by
  induction l generalizing i with
  | nil => exact absurd hi (Nat.not_lt_zero i)
  | cons a t ih =>
    cases i with
    | zero => simp [List.find?, show p a = true from hp]
    | succ k =>
      have ha : p a = false := hfirst 0 (Nat.succ_pos k)
      rw [List.find?, ha]
      exact ih k (Nat.lt_of_succ_lt_succ hi) hp
        (fun j hj => hfirst (j + 1) (Nat.succ_lt_succ hj))

/-- The patch loop sends exactly one single-entry PATCH per pending item,
in order, whatever the statuses are. -/
theorem patchLoop_fst (nm : String) (ps : Nat → Nat) :
    ∀ (pend : List Pendiente) (i : Nat),
      (patchLoop nm ps i pend).1 = pend.map (mkPatchCall nm) := by
  intro pend
  induction pend with
  | nil => intro i; rfl
  | cons p rest ih => intro i; simp [patchLoop, ih]

/-- The names collected by the patch loop are exactly those of the pending
items whose PATCH status is 200 or 204. -/
theorem patchLoop_snd (nm : String) (ps : Nat → Nat) :
    ∀ (pend : List Pendiente) (i : Nat),
      (patchLoop nm ps i pend).2 =
        ((List.enumFrom i pend).filter
            (fun ip => ps ip.1 == 200 || ps ip.1 == 204)).map
          (fun ip => ip.2.nombre) := by
  intro pend
  induction pend with
  | nil => intro i; rfl
  | cons p rest ih =>
    intro i
    rw [patchLoop, List.enumFrom, List.filter]
    cases h : (ps i == 200 || ps i == 204) with
    | true => simp [h, ih]
    | false => simp [h, ih]

/-- Every call produced by `mkPatchCall` is a PATCH. -/
theorem esPatch_mkPatchCall (nm : String) (p : Pendiente) :
    (mkPatchCall nm p).esPatch = true := rfl

/-- Filtering a mapped patch list for PATCH calls keeps everything. -/
theorem filter_esPatch_map_mkPatchCall (nm : String) (pend : List Pendiente) :
    (pend.map (mkPatchCall nm)).filter Call.esPatch = pend.map (mkPatchCall nm) := by
  induction pend with
  | nil => rfl
  | cons p rest ih => simp [List.filter, esPatch_mkPatchCall, ih]

/-- Shape of `actualizar_monedas` on the confirmed path. -/
theorem actualizar_monedas_confirm_shape (store : Store) (data : CambioMonedaRequest)
    (env : Env) (ctx : Session) (url : String)
    (hctx : store data.usuario = some ctx)
    (hreg : get_base_url ctx.region = .ok url)
    (hconf : data.confirmar = true)
    (hst : env.productList.1 = 200) :
    actualizar_monedas store data env =
      (.ok (.updated (patchLoop data.nueva_moneda env.patchSt 0
          (computePendientes env.productList.2 data.moneda_actual)).2),
       Call.productListGet :: (patchLoop data.nueva_moneda env.patchSt 0
          (computePendientes env.productList.2 data.moneda_actual)).1) := by
  unfold actualizar_monedas
  rw [hctx]
  simp [hreg, hconf, hst]

/-- Shape of `actualizar_monedas` on the preview path. -/
theorem actualizar_monedas_preview_shape (store : Store) (data : CambioMonedaRequest)
    (env : Env) (ctx : Session) (url : String)
    (hctx : store data.usuario = some ctx)
    (hreg : get_base_url ctx.region = .ok url)
    (hconf : data.confirmar = false)
    (hst : env.productList.1 = 200) :
    actualizar_monedas store data env =
      (.ok (.preview (computePendientes env.productList.2 data.moneda_actual)),
       [Call.productListGet]) := by
  unfold actualizar_monedas
  rw [hctx]
  simp [hreg, hconf, hst]

/-! ## Claim theorems -/

/-- C8: Category inference is a pure function of the normalised (trimmed,
lowercased) product name, applying the keyword rules in order with first
match winning: a name containing "cerveza", "ron" or "vino" maps to
"Bebidas Alcohólicas"; else one containing "refresco", "soda" or "jugos"
maps to "Refrescos"; any other name maps to "Mercado"; in particular
"Cerveza Bucanero" → "Bebidas Alcohólicas", "Jugos Ades" → "Refrescos",
"Arroz" → "Mercado". -/
theorem c8_inferir_categoria_reglas :
    (∀ a b, normalizar a = normalizar b → inferir_categoria a = inferir_categoria b)
    ∧ (∀ n, contieneAlguna (normalizar n) ["cerveza", "ron", "vino"] = true →
        inferir_categoria n = "Bebidas Alcohólicas")
    ∧ (∀ n, contieneAlguna (normalizar n) ["cerveza", "ron", "vino"] = false →
        contieneAlguna (normalizar n) ["refresco", "soda", "jugos"] = true →
        inferir_categoria n = "Refrescos")
    ∧ (∀ n, contieneAlguna (normalizar n) ["cerveza", "ron", "vino"] = false →
        contieneAlguna (normalizar n) ["refresco", "soda", "jugos"] = false →
        inferir_categoria n = "Mercado")
    ∧ inferir_categoria "Cerveza Bucanero" = "Bebidas Alcohólicas"
    ∧ inferir_categoria "Jugos Ades" = "Refrescos"
    ∧ inferir_categoria "Arroz" = "Mercado" := by
  refine ⟨?_, ?_, ?_, ?_, by decide, by decide, by decide⟩
  · intro a b h; unfold inferir_categoria; rw [h]
  · intro n h; unfold inferir_categoria; simp [h]
  · intro n h1 h2; unfold inferir_categoria; simp [h1, h2]
  · intro n h1 h2; unfold inferir_categoria; simp [h1, h2]

/-- Witness for C8 at concrete inputs: normalisation-equal names agree, and
one instance of each rule fires. -/
theorem c8_witness :
    inferir_categoria " CERVEZA " = inferir_categoria "cerveza"
    ∧ inferir_categoria "Ron Santiago" = "Bebidas Alcohólicas"
    ∧ inferir_categoria "Soda de cola" = "Refrescos"
    ∧ inferir_categoria "Pan" = "Mercado" :=
  ⟨c8_inferir_categoria_reglas.1 " CERVEZA " "cerveza" (by decide),
   c8_inferir_categoria_reglas.2.1 "Ron Santiago" (by decide),
   c8_inferir_categoria_reglas.2.2.1 "Soda de cola" (by decide) (by decide),
   c8_inferir_categoria_reglas.2.2.2.1 "Pan" (by decide) (by decide)⟩

/-- C4: when the product search succeeds and some returned item's trimmed,
lowercased name equals the trimmed, lowercased requested name, product
resolution returns the id of the first such item in search-result order,
and issues no further upstream call — in particular no product create and
no category call — so the existing product is neither duplicated nor
updated. -/
theorem c4_buscar_primero_sin_crear (producto : ProductoEntradaInteligente)
    (env : Env) (items : List Item) (i : Nat) (hi : i < items.length)
    (hstatus : env.search producto.nombre = (200, items))
    (hmatch : normalizar ((items.get ⟨i, hi⟩).name.getD "") = normalizar producto.nombre)
    (hfirst : ∀ j (hj : j < i),
        normalizar ((items.get ⟨j, Nat.lt_trans hj hi⟩).name.getD "")
          ≠ normalizar producto.nombre) :
    buscar_o_crear_producto producto env =
      (.ok (some ((items.get ⟨i, hi⟩).id)), [.productSearchGet producto.nombre]) := by
  have hfind : items.find?
      (fun p => normalizar (p.name.getD "") == normalizar producto.nombre)
      = some (items.get ⟨i, hi⟩) := by
    refine find_eq_get_of_first _ items i hi ?_ ?_
    · simpa using hmatch
    · intro j hj
      simpa using hfirst j hj
  unfold buscar_o_crear_producto
  rw [hstatus]
  simp [hfind]

/-- Witness for C4: the second item matches after trimming and lowercasing,
the first does not; its id is returned and only the search call is made. -/
theorem c4_witness :
    buscar_o_crear_producto ⟨"beer", 1, 3, "USD"⟩
        { env0 with search := fun _ => (200, [⟨4, some "bee"⟩, ⟨9, some " Beer "⟩]) }
      = (.ok (some 9), [.productSearchGet "beer"]) :=
  c4_buscar_primero_sin_crear ⟨"beer", 1, 3, "USD"⟩
    { env0 with search := fun _ => (200, [⟨4, some "bee"⟩, ⟨9, some " Beer "⟩]) }
    [⟨4, some "bee"⟩, ⟨9, some " Beer "⟩] 1 (by decide) rfl (by decide)
    (by decide)

/-- Example upstream product: two USD price entries and one EUR entry. -/
def prodMigracion : ProductItem :=
  ⟨11, "Prod", [⟨some "USD", 10, some 1⟩, ⟨some "USD", 20, some 2⟩,
                ⟨some "EUR", 5, some 1⟩]⟩

/-- Environment whose product list holds just `prodMigracion`. -/
def envMigracion : Env := { env0 with productList := (200, [prodMigracion]) }

/-- Same environment, but the first PATCH fails with status 500. -/
def envMigracionFalla : Env :=
  { envMigracion with patchSt := fun i => if i = 0 then 500 else 200 }

/-- C1: with confirm set to false, currency migration issues no PATCH call —
whatever the session, environment and `forzar_todos` flag — and whenever it
returns a 200 response, that response is the computed change-set as a
dry-run preview. -/
theorem c1_preview_sin_patch (store : Store) (data : CambioMonedaRequest)
    (env : Env) (h : data.confirmar = false) :
    (∀ c ∈ (actualizar_monedas store data env).2, c.esPatch = false)
    ∧ (∀ r, (actualizar_monedas store data env).1 = .ok r →
        r = .preview (computePendientes env.productList.2 data.moneda_actual)) := by
  unfold actualizar_monedas
  cases hs : store data.usuario with
  | none => simp
  | some ctx =>
    cases hr : get_base_url ctx.region with
    | error e => simp [hr]
    | ok u =>
      by_cases hst : env.productList.1 = 200
      · simp [hr, hst, h, Call.esPatch]
      · simp [hr, hst, Call.esPatch]

/-- Witness for C1 at a concrete preview request against `envMigracion`
(with `forzar_todos := true` to exercise "regardless of forceAll"). -/
theorem c1_witness :
    (∀ c ∈ (actualizar_monedas storeAna ⟨"ana", "USD", "CUP", false, true⟩
        envMigracion).2, c.esPatch = false)
    ∧ (∀ r, (actualizar_monedas storeAna ⟨"ana", "USD", "CUP", false, true⟩
        envMigracion).1 = .ok r →
        r = .preview (computePendientes envMigracion.productList.2 "USD")) :=
  c1_preview_sin_patch storeAna ⟨"ana", "USD", "CUP", false, true⟩ envMigracion rfl

/-- C2 counterexample: `prodMigracion` is the only product and the only one
with a non-empty change-set, yet the confirmed flow issues two PATCH calls
for it (one per matching price entry), not one PATCH per product. -/
theorem c2_counterexample :
    ((actualizar_monedas storeAna ⟨"ana", "USD", "CUP", true, false⟩
        envMigracion).2.filter Call.esPatch).length = 2
    ∧ (envMigracion.productList.2.filter
        (fun p => p.prices.any (fun pr => pr.codeCurrency == some "USD"))).length
      = 1 := by
  decide

/-- Dropping the leading listing GET from a trace before filtering for
PATCH calls. -/
theorem filter_esPatch_productListGet (l : List Call) :
    (Call.productListGet :: l).filter Call.esPatch = l.filter Call.esPatch := by
  simp [List.filter, Call.esPatch]

/-- C2 (amended): with confirm set to true, the flow issues one PATCH per
matched price entry (so a product with N matching entries receives N
PATCHes); each PATCH goes to the owning product and carries a single-entry
payload preserving that entry's numeric price and replacing its currency by
the target currency; price entries not matching the source currency appear
in no PATCH payload. -/
theorem c2_un_patch_por_precio (store : Store) (data : CambioMonedaRequest)
    (env : Env) (ctx : Session) (url : String)
    (hctx : store data.usuario = some ctx)
    (hreg : get_base_url ctx.region = .ok url)
    (hconf : data.confirmar = true)
    (hst : env.productList.1 = 200) :
    (actualizar_monedas store data env).2.filter Call.esPatch =
      (env.productList.2.map (fun p =>
        (p.prices.filter (fun pr => pr.codeCurrency == some data.moneda_actual)).map
          (fun pr => Call.productPatch p.id
            [⟨pr.systemPriceId.getD 1, pr.price, data.nueva_moneda⟩]))).flatten := by
  rw [actualizar_monedas_confirm_shape store data env ctx url hctx hreg hconf hst,
      patchLoop_fst, filter_esPatch_productListGet,
      filter_esPatch_map_mkPatchCall]
  simp only [computePendientes, List.map_flatten, List.map_map]
  congr 1
  apply List.map_congr_left
  intro p _
  simp [pendientesDe, mkPatchCall, List.map_map, Function.comp]

/-- Witness for C2 (amended): against `envMigracion` the two USD entries
yield exactly two single-entry PATCH calls, prices preserved. -/
theorem c2_witness :
    (actualizar_monedas storeAna ⟨"ana", "USD", "CUP", true, false⟩
        envMigracion).2.filter Call.esPatch =
      [.productPatch 11 [⟨1, 10, "CUP"⟩], .productPatch 11 [⟨2, 20, "CUP"⟩]] :=
  c2_un_patch_por_precio storeAna ⟨"ana", "USD", "CUP", true, false⟩ envMigracion
    ⟨"tok", 7, "apidev"⟩ "https://apidev.tecopos.com" rfl rfl rfl rfl

/-- C3: on the confirmed path every pending item is attempted — the number
of PATCH calls equals the size of the pending change-set, whatever the
per-call statuses, so one failure aborts nothing — and the returned list is
exactly the names of the pending items whose PATCH returned 200 or 204. -/
theorem c3_aislamiento_por_item (store : Store) (data : CambioMonedaRequest)
    (env : Env) (ctx : Session) (url : String)
    (hctx : store data.usuario = some ctx)
    (hreg : get_base_url ctx.region = .ok url)
    (hconf : data.confirmar = true)
    (hst : env.productList.1 = 200) :
    ((actualizar_monedas store data env).2.filter Call.esPatch).length
      = (computePendientes env.productList.2 data.moneda_actual).length
    ∧ (actualizar_monedas store data env).1 = .ok (.updated
        (((List.enumFrom 0 (computePendientes env.productList.2
              data.moneda_actual)).filter
            (fun ip => env.patchSt ip.1 == 200 || env.patchSt ip.1 == 204)).map
          (fun ip => ip.2.nombre))) := by
  rw [actualizar_monedas_confirm_shape store data env ctx url hctx hreg hconf hst]
  constructor
  · rw [patchLoop_fst, filter_esPatch_productListGet,
      filter_esPatch_map_mkPatchCall, List.length_map]
  · rw [patchLoop_snd]

/-- Witness for C3: first PATCH fails with 500, second succeeds — both are
attempted and only the second product name is reported. -/
theorem c3_witness :
    ((actualizar_monedas storeAna ⟨"ana", "USD", "CUP", true, false⟩
        envMigracionFalla).2.filter Call.esPatch).length = 2
    ∧ (actualizar_monedas storeAna ⟨"ana", "USD", "CUP", true, false⟩
        envMigracionFalla).1 = .ok (.updated ["Prod"]) :=
  c3_aislamiento_por_item storeAna ⟨"ana", "USD", "CUP", true, false⟩
    envMigracionFalla ⟨"tok", 7, "apidev"⟩ "https://apidev.tecopos.com"
    rfl rfl rfl rfl

/-- When every PATCH succeeds, the loop reports every pending item's name. -/
theorem patchLoop_snd_all_ok (nm : String) (ps : Nat → Nat)
    (h : ∀ i, ps i = 200) :
    ∀ (pend : List Pendiente) (i : Nat),
      (patchLoop nm ps i pend).2 = pend.map (fun q => q.nombre) := by
  intro pend
  induction pend with
  | nil => intro i; rfl
  | cons q rest ih => intro i; simp [patchLoop, h, ih]

/-- Mapping a constant function yields a replicated list. -/
theorem lista_map_constante {α β : Type} (l : List α) (b : β) :
    l.map (fun _ => b) = List.replicate l.length b := by
  induction l with
  | nil => rfl
  | cons a t ih => simp [List.replicate, ih]

/-- C10: a product whose price list has N entries in the source currency
contributes N pending items (one per matching entry, carrying that entry's
price and defaulted systemPriceId); under confirm the flow issues N PATCH
calls for it, its name occurs at most N times in any returned list, and
exactly N times when every PATCH succeeds. -/
theorem c10_n_entradas_n_patches (store : Store) (data : CambioMonedaRequest)
    (env : Env) (ctx : Session) (url : String) (p : ProductItem)
    (hctx : store data.usuario = some ctx)
    (hreg : get_base_url ctx.region = .ok url)
    (hconf : data.confirmar = true)
    (hprod : env.productList = (200, [p])) :
    computePendientes [p] data.moneda_actual
      = (p.prices.filter (fun pr => pr.codeCurrency == some data.moneda_actual)).map
          (fun pr => ⟨p.id, p.name, pr.price, pr.systemPriceId.getD 1⟩)
    ∧ (actualizar_monedas store data env).2.filter Call.esPatch
      = (p.prices.filter (fun pr => pr.codeCurrency == some data.moneda_actual)).map
          (fun pr => Call.productPatch p.id
            [⟨pr.systemPriceId.getD 1, pr.price, data.nueva_moneda⟩])
    ∧ (∀ names, (actualizar_monedas store data env).1 = .ok (.updated names) →
        names.count p.name
          ≤ (p.prices.filter (fun pr => pr.codeCurrency == some data.moneda_actual)).length)
    ∧ ((∀ i, env.patchSt i = 200) →
        (actualizar_monedas store data env).1 = .ok (.updated (List.replicate
          (p.prices.filter
            (fun pr => pr.codeCurrency == some data.moneda_actual)).length
          p.name))) := by
  have hst : env.productList.1 = 200 := by rw [hprod]
  have hlist : env.productList.2 = [p] := by rw [hprod]
  have hshape := actualizar_monedas_confirm_shape store data env ctx url
    hctx hreg hconf hst
  have hpend : computePendientes [p] data.moneda_actual
      = (p.prices.filter (fun pr => pr.codeCurrency == some data.moneda_actual)).map
          (fun pr => ⟨p.id, p.name, pr.price, pr.systemPriceId.getD 1⟩) := by
    simp [computePendientes, pendientesDe]
  refine ⟨hpend, ?_, ?_, ?_⟩
  · rw [hshape, patchLoop_fst, filter_esPatch_productListGet,
      filter_esPatch_map_mkPatchCall, hlist, hpend, List.map_map]
    rfl
  · intro names hnames
    rw [hshape] at hnames
    simp only [Except.ok.injEq, MonedaResult.updated.injEq] at hnames
    calc names.count p.name
        ≤ names.length := List.count_le_length p.name names
      _ ≤ (computePendientes env.productList.2 data.moneda_actual).length := by
          rw [← hnames, patchLoop_snd, List.length_map]
          exact le_trans (List.length_filter_le _ _)
            (le_of_eq List.enumFrom_length)
      _ = _ := by rw [hlist, hpend, List.length_map]
  · intro hall
    rw [hshape, patchLoop_snd_all_ok data.nueva_moneda env.patchSt hall, hlist,
      hpend, List.map_map]
    rw [show ((fun q : Pendiente => q.nombre) ∘
        (fun pr : Precio => (⟨p.id, p.name, pr.price, pr.systemPriceId.getD 1⟩ :
          Pendiente))) = fun _ => p.name from rfl]
    rw [lista_map_constante]

/-- Witness for C10: `prodMigracion` has two USD entries, so two pending
items, two PATCH calls, name count at most two, and exactly twice "Prod"
when all patches succeed. -/
theorem c10_witness :
    computePendientes [prodMigracion] "USD"
      = [⟨11, "Prod", 10, 1⟩, ⟨11, "Prod", 20, 2⟩]
    ∧ (actualizar_monedas storeAna ⟨"ana", "USD", "CUP", true, false⟩
          envMigracion).2.filter Call.esPatch
      = [.productPatch 11 [⟨1, 10, "CUP"⟩], .productPatch 11 [⟨2, 20, "CUP"⟩]]
    ∧ (["Prod", "Prod"] : List String).count "Prod" ≤ 2
    ∧ (actualizar_monedas storeAna ⟨"ana", "USD", "CUP", true, false⟩
          envMigracion).1 = .ok (.updated ["Prod", "Prod"]) :=
  ⟨(c10_n_entradas_n_patches storeAna ⟨"ana", "USD", "CUP", true, false⟩
      envMigracion ⟨"tok", 7, "apidev"⟩ "https://apidev.tecopos.com"
      prodMigracion rfl rfl rfl rfl).1,
   (c10_n_entradas_n_patches storeAna ⟨"ana", "USD", "CUP", true, false⟩
      envMigracion ⟨"tok", 7, "apidev"⟩ "https://apidev.tecopos.com"
      prodMigracion rfl rfl rfl rfl).2.1,
   (c10_n_entradas_n_patches storeAna ⟨"ana", "USD", "CUP", true, false⟩
      envMigracion ⟨"tok", 7, "apidev"⟩ "https://apidev.tecopos.com"
      prodMigracion rfl rfl rfl rfl).2.2.1 ["Prod", "Prod"] (by decide),
   (c10_n_entradas_n_patches storeAna ⟨"ana", "USD", "CUP", true, false⟩
      envMigracion ⟨"tok", 7, "apidev"⟩ "https://apidev.tecopos.com"
      prodMigracion rfl rfl rfl rfl).2.2.2 (fun _ => rfl)⟩

/-- C5: a smart-stock-entry request whose stockAreaId is absent or zero only
issues the stock-area listing GET — no product search/create, no category
call, no stock-entry POST — and when that GET returns 200 the response is
the area list as a selection prompt. -/
theorem c5_seleccion_de_area (store : Store) (data : EntradaInteligenteRequest)
    (env : Env) (ctx : Session) (url : String)
    (hctx : store data.usuario = some ctx)
    (hreg : get_base_url ctx.region = .ok url)
    (hid : pyTruthyInt data.stockAreaId = false) :
    (entrada_inteligente store data env).2 = [Call.areaListGet]
    ∧ (env.areaList.1 = 200 →
        entrada_inteligente store data env =
          (.ok (.seleccionArea (env.areaList.2.map fun a => (a.id, a.name))),
           [Call.areaListGet])) := by
  unfold entrada_inteligente
  rw [hctx]
  by_cases hst : env.areaList.1 = 200
  · simp [hreg, hid, hst]
  · simp [hreg, hid, hst]

/-- Witness for C5: stockAreaId 0 with a logged-in user returns the two
areas and issues only the listing GET. -/
theorem c5_witness :
    (entrada_inteligente storeAna
        ⟨"ana", some 0, [⟨"Pan", 2, 3, "CUP"⟩]⟩
        { env0 with areaList := (200, [⟨1, "Central"⟩, ⟨2, "Anexo"⟩]) }).2
      = [Call.areaListGet]
    ∧ (({ env0 with areaList := (200, [⟨1, "Central"⟩, ⟨2, "Anexo"⟩]) } :
          Env).areaList.1 = 200 →
        entrada_inteligente storeAna
            ⟨"ana", some 0, [⟨"Pan", 2, 3, "CUP"⟩]⟩
            { env0 with areaList := (200, [⟨1, "Central"⟩, ⟨2, "Anexo"⟩]) } =
          (.ok (.seleccionArea [(1, "Central"), (2, "Anexo")]),
           [Call.areaListGet])) :=
  c5_seleccion_de_area storeAna ⟨"ana", some 0, [⟨"Pan", 2, 3, "CUP"⟩]⟩
    { env0 with areaList := (200, [⟨1, "Central"⟩, ⟨2, "Anexo"⟩]) }
    ⟨"tok", 7, "apidev"⟩ "https://apidev.tecopos.com" rfl rfl rfl

/-- C6: for a user with no stored session, each of the three authenticated
flows returns the 403 "Usuario no autenticado" error having issued no
upstream call at all. -/
theorem c6_sin_sesion_403 (store : Store) (p : Producto)
    (e : EntradaInteligenteRequest) (c : CambioMonedaRequest)
    (envp enve envc : Env)
    (hp : store p.usuario = none) (he : store e.usuario = none)
    (hc : store c.usuario = none) :
    crear_producto_con_categoria store p envp
      = (.error ⟨403, "Usuario no autenticado"⟩, [])
    ∧ entrada_inteligente store e enve
      = (.error ⟨403, "Usuario no autenticado"⟩, [])
    ∧ actualizar_monedas store c envc
      = (.error ⟨403, "Usuario no autenticado"⟩, []) := by
  refine ⟨?_, ?_, ?_⟩
  · unfold crear_producto_con_categoria; rw [hp]
  · unfold entrada_inteligente; rw [he]
  · unfold actualizar_monedas; rw [hc]

/-- Witness for C6: the empty store rejects all three flows for user
"bob". -/
theorem c6_witness :
    crear_producto_con_categoria storeVacio
        ⟨"Pan", 3, none, "USD", "STOCK", [], "bob"⟩ env0
      = (.error ⟨403, "Usuario no autenticado"⟩, [])
    ∧ entrada_inteligente storeVacio ⟨"bob", some 4, []⟩ env0
      = (.error ⟨403, "Usuario no autenticado"⟩, [])
    ∧ actualizar_monedas storeVacio ⟨"bob", "USD", "CUP", true, true⟩ env0
      = (.error ⟨403, "Usuario no autenticado"⟩, []) :=
  c6_sin_sesion_403 storeVacio ⟨"Pan", 3, none, "USD", "STOCK", [], "bob"⟩
    ⟨"bob", some 4, []⟩ ⟨"bob", "USD", "CUP", true, true⟩ env0 env0 env0
    rfl rfl rfl

/-- C7 counterexample: with a 200 login response lacking a token, the flow
still issues the user-info GET before failing (the claim says it fails
without issuing it); moreover a user-info response with status 500 but a
businessId in its body is accepted as a success (the claim says a non-200
user-info response yields an error). -/
theorem c7_counterexample :
    Call.userInfoGet none ∈ (login_tecopos storeVacio "bob" "pw" "apidev"
        200 none 200 (some 5)).2.2
    ∧ (login_tecopos storeVacio "bob" "pw" "apidev" 200 none 200 (some 5)).1
      = .error ⟨400, "No se pudo obtener token o businessId"⟩
    ∧ (login_tecopos storeVacio "bob" "pw" "apidev" 200 (some "T") 500
        (some 5)).1 = .ok 5 := by
  decide

/-- C7 (amended): the Login flow aborts on a non-200 login response with
"Credenciales inválidas" before the user-info GET; when the 200 login
response lacks a usable token (or the user-info body lacks a businessId)
the user-info GET is nevertheless issued first and the flow then fails
with the combined token/businessId error — the user-info status code is
never checked, only the body — and on every failure path the session store
is returned unchanged; the session is written only when token and
businessId are both present. -/
theorem c7_login_orden_y_sesion (store : Store) (usuario password region : String)
    (ls : Nat) (token : Option String) (ist : Nat) (bid : Option Nat)
    (url : String) (hreg : get_base_url region = .ok url) :
    (ls ≠ 200 →
      login_tecopos store usuario password region ls token ist bid =
        (.error ⟨401, "Credenciales inválidas"⟩, store,
         [.loginPost usuario password]))
    ∧ (ls = 200 → (pyTruthyStr token && pyTruthyNat bid) = false →
        login_tecopos store usuario password region ls token ist bid =
          (.error ⟨400, "No se pudo obtener token o businessId"⟩, store,
           [.loginPost usuario password, .userInfoGet token]))
    ∧ (ls = 200 → (pyTruthyStr token && pyTruthyNat bid) = true →
        login_tecopos store usuario password region ls token ist bid =
          (.ok (bid.getD 0),
           store.put usuario ⟨token.getD "", bid.getD 0, region⟩,
           [.loginPost usuario password, .userInfoGet token])) := by
  unfold login_tecopos
  rw [hreg]
  refine ⟨?_, ?_, ?_⟩
  · intro h; simp [h]
  · intro h hf; simp [h, hf]
  · intro h ht; simp [h, ht]

/-- Witness for C7 (amended): the three paths at concrete inputs, with a
pre-existing session for "ana" left untouched on the failure paths. -/
theorem c7_witness :
    login_tecopos storeAna "bob" "pw" "apidev" 401 (some "T") 200 (some 5)
      = (.error ⟨401, "Credenciales inválidas"⟩, storeAna,
         [.loginPost "bob" "pw"])
    ∧ login_tecopos storeAna "bob" "pw" "apidev" 200 none 200 (some 5)
      = (.error ⟨400, "No se pudo obtener token o businessId"⟩, storeAna,
         [.loginPost "bob" "pw", .userInfoGet none])
    ∧ login_tecopos storeAna "bob" "pw" "apidev" 200 (some "T") 200 (some 5)
      = (.ok 5, storeAna.put "bob" ⟨"T", 5, "apidev"⟩,
         [.loginPost "bob" "pw", .userInfoGet (some "T")]) :=
  ⟨(c7_login_orden_y_sesion storeAna "bob" "pw" "apidev" 401 (some "T") 200
      (some 5) "https://apidev.tecopos.com" rfl).1 (by decide),
   (c7_login_orden_y_sesion storeAna "bob" "pw" "apidev" 200 none 200
      (some 5) "https://apidev.tecopos.com" rfl).2.1 rfl rfl,
   (c7_login_orden_y_sesion storeAna "bob" "pw" "apidev" 200 (some "T") 200
      (some 5) "https://apidev.tecopos.com" rfl).2.2 rfl rfl⟩

/-- Environment for C9: no existing categories, creating one returns id 9. -/
def envC9 : Env := { env0 with catCreate := fun _ => (201, some 9) }

/-- C9 counterexample: two simple-product-creation requests that differ in
the provided cost (5 vs 7) and in the categories beyond the first
(["CatA","CatB"] vs ["CatA"]) produce identical upstream traffic, and the
create payload actually sent carries neither a cost field nor the
categories list — only the salesCategoryId resolved from the first
category. -/
theorem c9_counterexample :
    crear_producto_con_categoria storeAna
        ⟨"Pan", 2, some 5, "USD", "STOCK", ["CatA", "CatB"], "ana"⟩ envC9
      = crear_producto_con_categoria storeAna
        ⟨"Pan", 2, some 7, "USD", "STOCK", ["CatA"], "ana"⟩ envC9
    ∧ crear_producto_con_categoria storeAna
        ⟨"Pan", 2, some 5, "USD", "STOCK", ["CatA", "CatB"], "ana"⟩ envC9
      = (.ok ("Pan", "CatA"),
         [.categoryListGet, .categoryCreatePost "CatA",
          .productCreatePost ⟨"STOCK", "Pan", [⟨1, 2, "USD"⟩], [], some 9⟩]) := by
  decide

/-- C9 (amended): the create POST payload contains exactly type, name, one
price entry (price, currency, systemPriceId 1), empty images and the
salesCategoryId resolved from the first caller category when the list is
non-empty (else from the inferred category); the caller's cost is never
included and categories beyond the first are ignored. -/
theorem c9_payload_sin_costo (store : Store) (data : Producto) (env : Env)
    (ctx : Session) (url : String) (cid : Option Nat) (catTr : List Call)
    (hctx : store data.usuario = some ctx)
    (hreg : get_base_url ctx.region = .ok url)
    (hcat : obtener_o_crear_categoria (categoriaElegida data) env
      = (.ok cid, catTr)) :
    (crear_producto_con_categoria store data env).2
      = catTr ++ [Call.productCreatePost
          ⟨data.tipo, data.nombre, [⟨1, data.precio, data.moneda⟩], [], cid⟩] := by
  unfold crear_producto_con_categoria
  rw [hctx]
  simp only [hreg, hcat]
  split <;> rfl

/-- Witness for C9 (amended): concrete request with cost 7 and one category;
the payload sent contains no cost and the resolved salesCategoryId 9. -/
theorem c9_witness :
    (crear_producto_con_categoria storeAna
        ⟨"Pan", 2, some 7, "USD", "STOCK", ["CatA"], "ana"⟩ envC9).2
      = [Call.categoryListGet, Call.categoryCreatePost "CatA",
         Call.productCreatePost ⟨"STOCK", "Pan", [⟨1, 2, "USD"⟩], [], some 9⟩] :=
  c9_payload_sin_costo storeAna
    ⟨"Pan", 2, some 7, "USD", "STOCK", ["CatA"], "ana"⟩ envC9
    ⟨"tok", 7, "apidev"⟩ "https://apidev.tecopos.com" (some 9)
    [Call.categoryListGet, Call.categoryCreatePost "CatA"] rfl rfl (by decide)
